/-
  Verification of the ad9361-rs interop and resource-safety shim.

  Shallow embedding of the Rust sources:
    src/types.rs        — domain type conversions (port selection, gain mode,
                          LO power status, temperature scaling)
    src/transaction.rs  — register transaction codec
    src/interop/alloc.rs — bump/scratchpad allocator (admalloc/adcalloc/adfree)
    src/interop/mod.rs  — GPIO bridge callbacks
    src/macros.rs       — typed accessor method shapes
    src/ad9361.rs       — device handle lifecycle (singleton flag, init, drop)

  Machine integers are modelled as Nat/Int; all relevant arithmetic here is
  far below any overflow boundary of the source types (u8/u16/u32/usize), and
  where a source operation could in principle wrap, an explicit bound appears
  as a hypothesis.  Panics (assert!/unreachable!) are modelled as explicit
  error/`none` outcomes; debug_assert! is modelled active (debug builds).
-/
import Mathlib

namespace Ad9361

/-! ## src/types.rs — domain conversions -/

/-- TX RF Port Selection (`TxRfPortSelection` in src/types.rs). -/
inductive TxRfPortSelection where
  | TXA
  | TXB
deriving DecidableEq, Repr

/-- `impl From<u32> for TxRfPortSelection` (src/types.rs lines 12–19):
`0 => TXA, _ => TXB`. -/
def txRfPortSelectionFromU32 (a : Nat) : TxRfPortSelection :=
  match a with
  | 0 => .TXA
  | _ => .TXB

/-- RX RF Port Selection (`RxRfPortSelection` in src/types.rs). -/
inductive RxRfPortSelection where
  | A_BALANCED
  | B_BALANCED
  | C_BALANCED
  | A_N
  | A_P
  | B_N
  | B_P
  | C_N
  | C_P
  | TX_MON1
  | TX_MON2
  | TX_MON1_2
deriving DecidableEq, Repr

/-- `impl From<u32> for RxRfPortSelection` (src/types.rs lines 56–73):
explicit arms for 1..11, catch-all arm `_ => A_BALANCED`. -/
def rxRfPortSelectionFromU32 (a : Nat) : RxRfPortSelection :=
  match a with
  | 1 => .B_BALANCED
  | 2 => .C_BALANCED
  | 3 => .A_N
  | 4 => .A_P
  | 5 => .B_N
  | 6 => .B_P
  | 7 => .C_N
  | 8 => .C_P
  | 9 => .TX_MON1
  | 10 => .TX_MON2
  | 11 => .TX_MON1_2
  | _ => .A_BALANCED

/-- RF Gain Control Mode (`RfGainControlMode` in src/types.rs). -/
inductive RfGainControlMode where
  | Manual
  | FastAttackAgc
  | SlowAttackAgc
  | HybridAgc
deriving DecidableEq, Repr

/-- `impl From<u8> for RfGainControlMode` (src/types.rs lines 220–230):
arms for 0..3; the catch-all arm is `unreachable!()`, i.e. a panic, modelled
as `none`. -/
def rfGainControlModeFromU8 (v : Nat) : Option RfGainControlMode :=
  match v with
  | 0 => some .Manual
  | 1 => some .FastAttackAgc
  | 2 => some .SlowAttackAgc
  | 3 => some .HybridAgc
  | _ => none

/-- Tx Local Oscillator power status (`LOPowerStatus` in src/types.rs,
discriminants `On = 0`, `Off = 1`). -/
inductive LOPowerStatus where
  | On
  | Off
deriving DecidableEq, Repr

/-- `impl From<u8> for LOPowerStatus` (src/types.rs lines 145–155):
`1 => On, 0 => Off` — deliberately the opposite sense to the enum
discriminants; any other raw value is `unreachable!()`, modelled `none`. -/
def loPowerStatusFromU8 (v : Nat) : Option LOPowerStatus :=
  match v with
  | 1 => some .On
  | 0 => some .Off
  | _ => none

/-- `impl From<TemperatureX1000> for f32` (src/types.rs lines 241–245):
`(t.0 as f32) / 1000.`.  The floating-point division is modelled exactly over
ℚ; for the i32 raw range the f32 result agrees with the rational value well
within the 0.1 tolerance the tests use. -/
def temperatureX1000ToCelsius (t : Int) : ℚ :=
  (t : ℚ) / 1000

/-! ## src/transaction.rs — register transaction codec -/

/-- `Ad9361Transaction` (src/transaction.rs): a wrapper around a byte slice.
Bytes are Nats < 256. -/
structure Ad9361Transaction where
  bytes : List Nat
deriving Repr

namespace Ad9361Transaction

/-- `register()` (src/transaction.rs lines 7–9):
`self.0[1] as u16 + ((self.0[0] as u16 & 3) << 8)`. -/
def register (t : Ad9361Transaction) : Nat :=
  t.bytes.getD 1 0 + ((t.bytes.getD 0 0 &&& 3) <<< 8)

/-- `is_write()` (src/transaction.rs lines 10–12): `self.0[0] & 0x80 > 0`. -/
def is_write (t : Ad9361Transaction) : Bool :=
  t.bytes.getD 0 0 &&& 0x80 > 0

/-- `value()` (src/transaction.rs lines 13–15): `self.0[2]`. -/
def value (t : Ad9361Transaction) : Nat :=
  t.bytes.getD 2 0

/-- `length()` (src/transaction.rs lines 16–18):
`((self.0[0] >> 4) & 7) as usize + 1`. -/
def length (t : Ad9361Transaction) : Nat :=
  ((t.bytes.getD 0 0 >>> 4) &&& 7) + 1

end Ad9361Transaction

/-! ## src/interop/alloc.rs — special-purpose allocator

Pointers handed across the C boundary are modelled by `Ptr`: the scratchpad
is its own static object, heap pointers are word addresses within the
caller-supplied `u32` buffer.  `HEAP_START/TOP/PREVIOUS/END` are `*mut u32`
statics, initially null; `inited` models `HEAP_TOP` being non-null (set by
`init_admalloc`), at which point `base`/`top`/`hEnd` carry the word
addresses.  `HEAP_PREVIOUS` is modelled as `Option Nat` (`none` = still
null); note `init_admalloc` does not reset it, matching the source. -/

/-- A pointer value as seen by `admalloc`/`adfree`. -/
inductive Ptr where
  | null
  | scratch
  | heap (addr : Nat)
deriving DecidableEq, Repr

/-- The process-wide allocator state of src/interop/alloc.rs (lines 21–27). -/
structure AllocState where
  base : Nat
  top : Nat
  prev : Option Nat
  hEnd : Nat
  inited : Bool
  scratchAllocated : Bool
deriving DecidableEq, Repr

/-- `init_admalloc(heap_start, heap_len)` (src/interop/alloc.rs lines 29–34):
sets START/TOP/END and clears the scratchpad flag; `HEAP_PREVIOUS` is left
unchanged. -/
def init_admalloc (s : AllocState) (heapStart heapLen : Nat) : AllocState :=
  { s with
    base := heapStart
    top := heapStart
    hEnd := heapStart + heapLen
    inited := true
    scratchAllocated := false }

/-- The fatal outcomes of `admalloc` (assert! / debug_assert! messages). -/
inductive AllocPanic where
  | doubleScratch
  | notInitialized
  | heapExhausted
deriving DecidableEq, Repr

/-- `admalloc(size)` (src/interop/alloc.rs lines 37–62).  `size < 8` is
served from the scratchpad (debug_assert! against double allocation,
modelled active); otherwise `(size + 3) / 4` words are taken from the bump
heap, with `assert!` panics for an uninitialized heap and for
`HEAP_TOP.offset_from(HEAP_END) > 0` after the bump. -/
def admalloc (s : AllocState) (size : Nat) : Except AllocPanic (Ptr × AllocState) :=
  if size < 8 then
    if s.scratchAllocated then
      .error .doubleScratch
    else
      .ok (.scratch, { s with scratchAllocated := true })
  else
    if s.inited then
      let words := (size + 3) / 4
      let previous := s.top
      let newTop := s.top + words
      if newTop ≤ s.hEnd then
        .ok (.heap previous, { s with prev := some previous, top := newTop })
      else
        .error .heapExhausted
    else
      .error .notInitialized

/-- `adfree(ptr)` (src/interop/alloc.rs lines 71–87).  The source compares
`ptr` against null, the scratchpad static, `HEAP_START` and `HEAP_PREVIOUS`
in that order; the scratchpad static is never a heap address, and a non-null
pointer can only equal `HEAP_START`/`HEAP_PREVIOUS` when those are non-null
(`inited` / `prev = some _`). -/
def adfree (s : AllocState) (p : Ptr) : AllocState :=
  match p with
  | .null => s
  | .scratch => { s with scratchAllocated := false }
  | .heap a =>
    if s.inited ∧ a = s.base then
      { s with top := s.base }
    else if s.prev = some a then
      { s with top := a }
    else
      s

/-! ### Byte memory, for `adcalloc`

`adcalloc` calls `ptr::write_bytes(mem, 0, nmemb * size)` on a `*mut u32`;
`core::ptr::write_bytes::<T>` sets `count * size_of::<T>()` bytes, so with
`T = u32` each unit of the count clears 4 bytes.  Byte memory is a flat
`Nat → Nat` map; the scratchpad occupies byte addresses
`[scratchByteBase, scratchByteBase + 8)` and heap word `a` occupies byte
addresses `[heapByteBase + 4*a, heapByteBase + 4*a + 4)`, with the two
regions disjoint (they are distinct statics in the source). -/

/-- Model byte address of the scratchpad static. -/
def scratchByteBase : Nat := 0x100

/-- Model byte address of heap word 0. -/
def heapByteBase : Nat := 0x1000

/-- Byte address a `Ptr` denotes (null is never written through here). -/
def Ptr.byteAddr : Ptr → Nat
  | .null => 0
  | .scratch => scratchByteBase
  | .heap a => heapByteBase + 4 * a

/-- `core::ptr::write_bytes::<u32>(dst, 0, count)`: clears `count` units of
4 bytes each, one unit at a time. -/
def write_bytes_u32 (mem : Nat → Nat) (addr : Nat) : Nat → (Nat → Nat)
  | 0 => mem
  | n + 1 =>
    write_bytes_u32
      (fun a => if addr ≤ a ∧ a < addr + 4 then 0 else mem a) (addr + 4) n

/-- `adcalloc(nmemb, size)` (src/interop/alloc.rs lines 64–69):
`admalloc(nmemb * size)` followed by
`ptr::write_bytes(mem, 0, nmemb * size)` on the returned `*mut u32`. -/
def adcalloc (s : AllocState) (mem : Nat → Nat) (nmemb size : Nat) :
    Except AllocPanic (Ptr × AllocState × (Nat → Nat)) :=
  match admalloc s (nmemb * size) with
  | .error e => .error e
  | .ok (p, s') => .ok (p, s', write_bytes_u32 mem p.byteAddr (nmemb * size))

/-! ## src/ad9361.rs — device handle lifecycle and singleton flag

`static TAKEN: AtomicBool` guards the single instance.  The program is
synchronous and single-threaded (spec §5), so an atomic swap is modelled as
a pure state transition returning the old value. -/

/-- `TAKEN.swap(v, Ordering::AcqRel)`: returns the old flag, stores `v`. -/
def takenSwap (flag v : Bool) : Bool × Bool :=
  (flag, v)

/-- `Ad9361::new` (src/ad9361.rs lines 83–103), restricted to its effect on
the `TAKEN` flag: swap in `true`, then `panic!` if the old value was `true`.
Returns the flag after the swap and whether construction panicked. -/
def ad9361_new (flag : Bool) : Bool × Except Unit Unit :=
  let (old, flag') := takenSwap flag true
  (flag', if old then .error () else .ok ())

/-- `impl Drop for Ad9361` (src/ad9361.rs lines 62–67), restricted to its
effect on the `TAKEN` flag: `assert!(TAKEN.swap(false, AcqRel))` — swap in
`false` and panic (second component `.error`) if the old value was `false`. -/
def ad9361_drop (flag : Bool) : Bool × Except Unit Unit :=
  let (old, flag') := takenSwap flag false
  (flag', if old then .ok () else .error ())

/-! ### Typed accessor shapes (src/macros.rs)

The foreign driver state `ad9361_rf_phy` is opaque to the wrapper; the
handle's `inner: *mut ad9361_rf_phy` is modelled as `Option PhyState`
(`none` = null).  Every method generated by `ad9361_method!` begins with
`assert!(!self.inner.is_null(), "Must call init() method before accessing
ad9361")`; the four macro shapes below are the templates every generated
`get_X`/`set_X` method instantiates, with the foreign call abstracted as a
status/raw-value pair. -/

/-- Opaque foreign driver state. -/
abbrev PhyState : Type := Unit

/-- The distinct `assert!` sites of the accessor layer. -/
inductive PanicKind where
  | notInit
  | badArg
  | unreachableConv
deriving DecidableEq, Repr

/-- Outcome of one accessor call: a panic, a success value, or the foreign
status code surfaced as `Err(status)`. -/
inductive MethodResult (α : Type) where
  | panic (k : PanicKind)
  | ok (a : α)
  | err (status : Int)
deriving DecidableEq, Repr

/-- `ad9361_method!(SET: ...)` shape (src/macros.rs lines 5–27): null
check, convert arguments, call the foreign setter, `Ok(())` on status 0 and
`Err(status)` otherwise.  Argument conversion is folded into `foreign`. -/
def setMethod (inner : Option PhyState) (foreign : PhyState → Int) :
    MethodResult Unit :=
  match inner with
  | none => .panic .notInit
  | some phy =>
    let status := foreign phy
    if status = 0 then .ok () else .err status

/-- `ad9361_method!(GET: ...)` shape (src/macros.rs lines 30–53): null
check, foreign getter fills a raw out-value, on status 0 the raw value is
converted (optionally through an intermediate) and returned.  `conv` is the
conversion pipeline; a `conv` that can hit `unreachable!()` is modelled by
`conv` returning `none` there. -/
def getMethod {R α : Type} (inner : Option PhyState)
    (foreign : PhyState → Int × R) (conv : R → Option α) : MethodResult α :=
  match inner with
  | none => .panic .notInit
  | some phy =>
    let (status, raw) := foreign phy
    if status = 0 then
      match conv raw with
      | some a => .ok a
      | none => .panic .unreachableConv
    else
      .err status

/-- `ad9361_method!(GET_INFALLIBLE: ...)` shape (src/macros.rs lines
56–75): null check, foreign call with an out-value and no status; the
converted value is returned unconditionally. -/
def getInfallibleMethod {R α : Type} (inner : Option PhyState)
    (foreign : PhyState → R) (conv : R → Option α) : MethodResult α :=
  match inner with
  | none => .panic .notInit
  | some phy =>
    match conv (foreign phy) with
    | some a => .ok a
    | none => .panic .unreachableConv

/-- `ad9361_method!(GET_INFALLIBLE_VAL: ...)` shape (src/macros.rs lines
77–93): null check, foreign call returning the raw value directly. -/
def getInfallibleValMethod {R α : Type} (inner : Option PhyState)
    (foreign : PhyState → R) (conv : R → Option α) : MethodResult α :=
  match inner with
  | none => .panic .notInit
  | some phy =>
    match conv (foreign phy) with
    | some a => .ok a
    | none => .panic .unreachableConv

/-- `Ad9361::set_intf_delay` (src/ad9361.rs lines 270–305): two range
asserts on the delays, then the shared null-pointer assert, then an ENSM
force (when `clock_changed`), one SPI register write of
`(clock_delay << 4) | data_delay` to address 7 (tx) or 6 (rx), and the
usual status surfacing.  The SPI write is abstracted as `spiWrite address
value`. -/
def set_intf_delay (inner : Option PhyState) (tx : Bool)
    (clock_delay data_delay : Nat) (clock_changed : Bool)
    (spiWrite : Nat → Nat → Int) : MethodResult Unit :=
  if clock_delay < 16 then
    if data_delay < 16 then
      match inner with
      | none => .panic .notInit
      | some _ =>
        let _ := clock_changed
        let address := if tx then 0x7 else 0x6
        let value := (clock_delay <<< 4) ||| data_delay
        let status := spiWrite address value
        if status = 0 then .ok () else .err status
    else
      .panic .badArg
  else
    .panic .badArg

/-- `Ad9361::set_lvds_bias_control` (src/ad9361.rs lines 312–339): two
range asserts on `lvds_bias_m_v`, value assembly for register 0x03C, the
shared null-pointer assert, one SPI write, status surfacing. -/
def set_lvds_bias_control (inner : Option PhyState)
    (rx_on_chip_term lvds_tx_lo_vcm : Bool) (lvds_bias_m_v : Nat)
    (spiWrite : Nat → Nat → Int) : MethodResult Unit :=
  if lvds_bias_m_v ≤ 450 then
    if 75 ≤ lvds_bias_m_v then
      let address := 0x03C
      let value := (if rx_on_chip_term then 0x20 else 0) |||
        (if lvds_tx_lo_vcm then 0x08 else 0) ||| ((lvds_bias_m_v - 75) / 75)
      match inner with
      | none => .panic .notInit
      | some _ =>
        let status := spiWrite address value
        if status = 0 then .ok () else .err status
    else
      .panic .badArg
  else
    .panic .badArg

/-- The wrapper-side handle state that accessor calls depend on:
`inner: *mut ad9361_rf_phy` and `is_init: bool` (src/ad9361.rs lines
14–23). -/
structure Handle where
  inner : Option PhyState
  is_init : Bool

/-- A freshly constructed handle (src/ad9361.rs lines 93–102): `inner` is
null, `is_init` is false. -/
def Handle.fresh : Handle :=
  { inner := none, is_init := false }

/-- `Ad9361::init` (src/ad9361.rs lines 111–179), restricted to its effect
on `inner`/`is_init`: the foreign `ad9361_init` either succeeds and writes
the allocated phy structure through the `inner` slot, or fails with a
nonzero status (`foreignInit` abstracts that outcome; on failure the slot
keeps its prior value).  `is_init` is set in both cases, and status 0 maps
to `Ok(())`. -/
def Handle.init (h : Handle) (foreignInit : Except Int PhyState) :
    Handle × Except Int Unit :=
  match foreignInit with
  | .ok phy => ({ h with inner := some phy, is_init := true }, .ok ())
  | .error status => ({ h with is_init := true }, .error status)

/-! ## src/interop/mod.rs — GPIO bridge -/

/-- A GPIO descriptor as the C driver sees it (src/interop/mod.rs): a pin
number plus the type-erased `platform_ops`/`extra` pair.  For `gpio_get_value`
the pair would let a trampoline read the real pin, whose level is carried
here as `pinLevel` so the model can state what the bridge ignores. -/
structure GpioDesc where
  number : Int
  pinLevel : Bool

/-- `gpio_get_value` (src/interop/mod.rs lines 256–268): traces the pin
number, stores `0` through the out-pointer (`// Not implemented`) and
returns status `0`, without consulting `platform_ops`/`extra`.  Result is
(value written through `value`, returned status). -/
def gpio_get_value (descriptor : GpioDesc) : Nat × Int :=
  let _ := descriptor.number
  (0, 0)

/-! ## Theorems -/

/-- C1: At most one device handle exists process-wide.  With no live handle
(`TAKEN = false`) construction succeeds and takes the flag; with a live
handle (`TAKEN = true`) a second `new()` panics, the flag having been
atomically swapped (it stays `true`); `drop` clears the flag, and a `new()`
after any drop succeeds. -/
theorem singleton_taken_flag_lifecycle :
    ad9361_new false = (true, .ok ()) ∧
    ad9361_new true = (true, .error ()) ∧
    (∀ flag : Bool, (ad9361_drop flag).1 = false) ∧
    (∀ flag : Bool, ad9361_new (ad9361_drop flag).1 = (true, .ok ())) :=
  ⟨rfl, rfl, fun _ => rfl, fun _ => rfl⟩

/-- C2: Every typed accessor shape generated by `ad9361_method!`, and the
direct register writes `set_intf_delay` / `set_lvds_bias_control`, panics
with the not-initialized precondition violation when the handle's `inner`
pointer is still null (it never returns a recoverable `Err`); and whenever
`init()` has returned `Ok(())`, that fatal branch is unreachable. -/
theorem accessor_before_init_panics (R α : Type) (sf : PhyState → Int)
    (gf : PhyState → Int × R) (nf : PhyState → R) (conv : R → Option α)
    (tx cc roct lvcm : Bool) (cd dd bias : Nat) (spi : Nat → Nat → Int)
    (hcd : cd < 16) (hdd : dd < 16) (hlo : 75 ≤ bias) (hhi : bias ≤ 450) :
    setMethod none sf = .panic .notInit ∧
    getMethod none gf conv = .panic .notInit ∧
    getInfallibleMethod none nf conv = .panic .notInit ∧
    getInfallibleValMethod none nf conv = .panic .notInit ∧
    set_intf_delay none tx cd dd cc spi = .panic .notInit ∧
    set_lvds_bias_control none roct lvcm bias spi = .panic .notInit ∧
    (∀ (h h' : Handle) fInit, Handle.init h fInit = (h', .ok ()) →
      setMethod h'.inner sf ≠ .panic .notInit ∧
      getMethod h'.inner gf conv ≠ .panic .notInit ∧
      getInfallibleMethod h'.inner nf conv ≠ .panic .notInit ∧
      getInfallibleValMethod h'.inner nf conv ≠ .panic .notInit ∧
      set_intf_delay h'.inner tx cd dd cc spi ≠ .panic .notInit ∧
      set_lvds_bias_control h'.inner roct lvcm bias spi ≠ .panic .notInit) := by
  refine ⟨rfl, rfl, rfl, rfl, ?_, ?_, ?_⟩
  · simp [set_intf_delay, hcd, hdd]
  · simp [set_lvds_bias_control, hlo, hhi]
  · intro h h' fInit hinit
    match fInit with
    | .error status => simp [Handle.init] at hinit
    | .ok phy =>
      simp only [Handle.init, Prod.mk.injEq] at hinit
      obtain ⟨rfl, -⟩ := hinit
      refine ⟨?_, ?_, ?_, ?_, ?_, ?_⟩
      · simp only [setMethod]
        split <;> simp
      · simp only [getMethod]
        split
        · split <;> simp
        · simp
      · simp only [getInfallibleMethod]
        split <;> simp
      · simp only [getInfallibleValMethod]
        split <;> simp
      · simp only [set_intf_delay, if_pos hcd, if_pos hdd]
        split_ifs <;> simp
      · simp only [set_lvds_bias_control, if_pos hhi, if_pos hlo]
        split_ifs <;> simp

/-- Witness for C2: concrete instantiation — calling a setter on a fresh
(null-`inner`) handle panics with the precondition violation, and after a
successful `init()` the same `set_intf_delay` call does not hit it. -/
theorem accessor_before_init_panics_witness :
    setMethod none (fun _ => 0) = .panic .notInit ∧
    set_intf_delay (some ()) true 0 0 false (fun _ _ => 0) ≠ .panic .notInit := by
  have h := accessor_before_init_panics Nat Nat (fun _ => 0) (fun _ => (0, 0))
    (fun _ => 0) (fun r => some r) true false false false 0 0 75 (fun _ _ => 0)
    (by decide) (by decide) (by decide) (by decide)
  exact ⟨h.1,
    (h.2.2.2.2.2.2 Handle.fresh ⟨some (), true⟩ (.ok ()) rfl).2.2.2.2.1⟩

/-- Inversion for the heap path of `admalloc`: a successful allocation of
`size ≥ 8` bytes forces an initialized heap, returns the old cursor,
bumps the cursor by `(size+3)/4` words recording it in `prev`, and stays
within the end bound. -/
theorem admalloc_heap_ok (s : AllocState) (size : Nat) (hs : 8 ≤ size)
    (p : Ptr) (s' : AllocState) (h : admalloc s size = .ok (p, s')) :
    s.inited = true ∧ p = .heap s.top ∧
    s' = { s with prev := some s.top, top := s.top + (size + 3) / 4 } ∧
    s.top + (size + 3) / 4 ≤ s.hEnd := by
  rw [admalloc, if_neg (by omega : ¬ size < 8)] at h
  by_cases hi : s.inited = true
  · rw [if_pos hi] at h
    by_cases hb : s.top + (size + 3) / 4 ≤ s.hEnd
    · rw [if_pos hb] at h
      simp only [Except.ok.injEq, Prod.mk.injEq] at h
      exact ⟨hi, h.1.symm, h.2.symm, hb⟩
    · rw [if_neg hb] at h
      exact absurd h (by simp)
  · rw [if_neg hi] at h
    exact absurd h (by simp)

/-- C3: `admalloc` contract.  Sizes below 8 bytes are served from the
scratchpad (marking it occupied; double allocation is fatal in debug
builds); sizes of at least 8 bytes round up to `(size+3)/4` four-byte words
— exactly `ceil(size/4)`, as the third conjunct characterizes — advance the
bump cursor by exactly that amount, return the previous cursor, and are
fatal when the advanced cursor would pass the heap's end bound; sequential
in-bounds heap allocations keep the cursor strictly monotonic and yield
non-overlapping word ranges. -/
theorem admalloc_contract (s : AllocState) (size sz2 : Nat) :
    (size < 8 → s.scratchAllocated = false →
      admalloc s size = .ok (.scratch, { s with scratchAllocated := true })) ∧
    (size < 8 → s.scratchAllocated = true →
      admalloc s size = .error .doubleScratch) ∧
    (size ≤ 4 * ((size + 3) / 4) ∧ 4 * ((size + 3) / 4) < size + 4) ∧
    (8 ≤ size → s.inited = true → s.top + (size + 3) / 4 ≤ s.hEnd →
      admalloc s size =
        .ok (.heap s.top,
          { s with prev := some s.top, top := s.top + (size + 3) / 4 })) ∧
    (8 ≤ size → s.inited = true → s.hEnd < s.top + (size + 3) / 4 →
      admalloc s size = .error .heapExhausted) ∧
    (8 ≤ size → 8 ≤ sz2 →
      ∀ p1 s1 p2 s2,
        admalloc s size = .ok (p1, s1) → admalloc s1 sz2 = .ok (p2, s2) →
          p1 = .heap s.top ∧ p2 = .heap (s.top + (size + 3) / 4) ∧
          s.top < s1.top ∧ s1.top < s2.top ∧
          ∀ i j, i < (size + 3) / 4 → j < (sz2 + 3) / 4 →
            s.top + i ≠ s.top + (size + 3) / 4 + j) := by
  refine ⟨?_, ?_, ?_, ?_, ?_, ?_⟩
  · intro hs hsc
    simp [admalloc, hs, hsc]
  · intro hs hsc
    simp [admalloc, hs, hsc]
  · omega
  · intro hs hi hb
    rw [admalloc, if_neg (by omega : ¬ size < 8), if_pos hi, if_pos hb]
  · intro hs hi hb
    rw [admalloc, if_neg (by omega : ¬ size < 8), if_pos hi,
      if_neg (by omega : ¬ s.top + (size + 3) / 4 ≤ s.hEnd)]
  · intro hs1 hs2 p1 s1 p2 s2 h1 h2
    obtain ⟨hi, rfl, rfl, hb1⟩ := admalloc_heap_ok s size hs1 p1 s1 h1
    obtain ⟨-, rfl, rfl, -⟩ := admalloc_heap_ok _ sz2 hs2 p2 s2 h2
    refine ⟨rfl, rfl, ?_, ?_, ?_⟩
    · show s.top < s.top + (size + 3) / 4
      omega
    · show s.top + (size + 3) / 4 < s.top + (size + 3) / 4 + (sz2 + 3) / 4
      omega
    · intro i j hij hj
      omega

/-- Witness for C3: a concrete run.  From a fresh 100-word heap at word
address 0, a 4-byte request takes the scratchpad, a second small request
before freeing it is the fatal double-allocation; a 12-byte request takes
words 0–2 and a following 8-byte request takes words 3–4 (previous cursor
returned, no overlap). -/
theorem admalloc_contract_witness :
    admalloc
        { base := 0, top := 0, prev := none, hEnd := 100, inited := true,
          scratchAllocated := false } 4 =
      .ok (.scratch,
        { base := 0, top := 0, prev := none, hEnd := 100, inited := true,
          scratchAllocated := true }) ∧
    admalloc
        { base := 0, top := 0, prev := none, hEnd := 100, inited := true,
          scratchAllocated := true } 4 = .error .doubleScratch ∧
    admalloc
        { base := 0, top := 0, prev := none, hEnd := 100, inited := true,
          scratchAllocated := false } 12 =
      .ok (.heap 0,
        { base := 0, top := 3, prev := some 0, hEnd := 100, inited := true,
          scratchAllocated := false }) ∧
    admalloc
        { base := 0, top := 3, prev := some 0, hEnd := 100, inited := true,
          scratchAllocated := false } 8 =
      .ok (.heap 3,
        { base := 0, top := 5, prev := some 3, hEnd := 100, inited := true,
          scratchAllocated := false }) := by
  have h1 := admalloc_contract
    { base := 0, top := 0, prev := none, hEnd := 100, inited := true,
      scratchAllocated := false } 4 8
  have h2 := admalloc_contract
    { base := 0, top := 0, prev := none, hEnd := 100, inited := true,
      scratchAllocated := true } 4 8
  have h3 := admalloc_contract
    { base := 0, top := 0, prev := none, hEnd := 100, inited := true,
      scratchAllocated := false } 12 8
  have h4 := admalloc_contract
    { base := 0, top := 3, prev := some 0, hEnd := 100, inited := true,
      scratchAllocated := false } 8 8
  exact ⟨h1.1 (by decide) rfl, h2.2.1 (by decide) rfl,
    h3.2.2.2.1 (by decide) rfl (by decide), h4.2.2.2.1 (by decide) rfl (by decide)⟩

/-- C4: `adfree` contract.  Freeing null is a no-op; freeing the scratchpad
address clears its occupancy flag; freeing the heap base rewinds the cursor
to the base, after which an in-bounds allocation sequence starts again from
the base (full capacity); freeing the single most recent heap allocation
(`HEAP_PREVIOUS`) rewinds the cursor to it; freeing any other pointer
leaves the allocator state exactly unchanged. -/
theorem adfree_contract (s : AllocState) (a sz : Nat) :
    adfree s .null = s ∧
    adfree s .scratch = { s with scratchAllocated := false } ∧
    (s.inited = true → adfree s (.heap s.base) = { s with top := s.base }) ∧
    (s.inited = true → s.prev = some a → a ≠ s.base →
      adfree s (.heap a) = { s with top := a }) ∧
    (a ≠ s.base → s.prev ≠ some a → adfree s (.heap a) = s) ∧
    (s.inited = true → 8 ≤ sz → s.base + (sz + 3) / 4 ≤ s.hEnd →
      admalloc (adfree s (.heap s.base)) sz =
        .ok (.heap s.base,
          { s with prev := some s.base, top := s.base + (sz + 3) / 4 })) := by
  refine ⟨rfl, rfl, ?_, ?_, ?_, ?_⟩
  · intro hi
    simp [adfree, hi]
  · intro hi hp hne
    rw [adfree, if_neg (by simp [hne]), if_pos hp]
  · intro hne hp
    rw [adfree, if_neg (by simp [hne]), if_neg hp]
  · intro hi hsz hb
    rw [adfree, if_pos ⟨hi, rfl⟩]
    rw [admalloc, if_neg (by omega : ¬ sz < 8), if_pos hi, if_pos hb]

/-- Witness for C4: concrete runs on the state with base 0, cursor 5, most
recent allocation at word 3, 100-word heap: freeing word 3 rewinds the
cursor to 3, freeing word 7 changes nothing, freeing word 0 (the base)
resets the cursor and a subsequent 8-byte allocation succeeds at the
base. -/
theorem adfree_contract_witness :
    adfree
        { base := 0, top := 5, prev := some 3, hEnd := 100, inited := true,
          scratchAllocated := true } .scratch =
      { base := 0, top := 5, prev := some 3, hEnd := 100, inited := true,
        scratchAllocated := false } ∧
    adfree
        { base := 0, top := 5, prev := some 3, hEnd := 100, inited := true,
          scratchAllocated := false } (.heap 3) =
      { base := 0, top := 3, prev := some 3, hEnd := 100, inited := true,
        scratchAllocated := false } ∧
    adfree
        { base := 0, top := 5, prev := some 3, hEnd := 100, inited := true,
          scratchAllocated := false } (.heap 7) =
      { base := 0, top := 5, prev := some 3, hEnd := 100, inited := true,
        scratchAllocated := false } ∧
    admalloc
        (adfree
          { base := 0, top := 5, prev := some 3, hEnd := 100, inited := true,
            scratchAllocated := false } (.heap 0)) 8 =
      .ok (.heap 0,
        { base := 0, top := 2, prev := some 0, hEnd := 100, inited := true,
          scratchAllocated := false }) := by
  have ha := adfree_contract
    { base := 0, top := 5, prev := some 3, hEnd := 100, inited := true,
      scratchAllocated := true } 3 8
  have hb := adfree_contract
    { base := 0, top := 5, prev := some 3, hEnd := 100, inited := true,
      scratchAllocated := false } 3 8
  have hc := adfree_contract
    { base := 0, top := 5, prev := some 3, hEnd := 100, inited := true,
      scratchAllocated := false } 7 8
  exact ⟨ha.2.1, hb.2.2.2.1 rfl rfl (by decide), hc.2.2.2.2.1 (by decide) (by decide),
    hb.2.2.2.2.2 rfl (by decide) (by decide)⟩

/-- C5 (code bug): `adcalloc(1, 8)` on a fresh 100-word heap allocates 2
words (8 bytes, so the claimed zero region is bytes `[base, base+8)`), yet
the zero-fill clears 32 bytes: `ptr::write_bytes(mem, 0, nmemb * size)` on
a `*mut u32` clears `nmemb*size` four-byte units.  With every byte of
memory initially 7, byte `base+7` (inside the claimed region) and bytes
`base+8`, `base+31` (outside it, and beyond the 2-word allocation) all read
0 afterwards, while byte `base+32` still reads 7 — so the fill is 4× wider
than `count*size` bytes. -/
theorem adcalloc_zero_fill_overruns_allocation :
    (adcalloc
        (init_admalloc
          { base := 0, top := 0, prev := none, hEnd := 0, inited := false,
            scratchAllocated := false } 0 100)
        (fun _ => 7) 1 8).toOption.map
      (fun r => (r.1, (r.2.1).top, r.2.2 (heapByteBase + 7),
        r.2.2 (heapByteBase + 8), r.2.2 (heapByteBase + 31),
        r.2.2 (heapByteBase + 32))) =
    some (.heap 0, 2, 0, 0, 0, 7) := by
  decide

/-- C6 counterexample: the gain-control-mode from-raw conversion is not
total — at the out-of-range raw value 4 it hits `unreachable!()` (no
default variant is produced). -/
theorem rf_gain_control_mode_from_raw_aborts :
    rfGainControlModeFromU8 4 = none :=
  rfl

/-- C6 (amended): the RX and TX RF-port-selection from-raw conversions are
total and map every out-of-range raw value to the catch-all default variant
(`A_BALANCED`, resp. `TXB`); the gain-control-mode from-raw conversion
instead panics (`unreachable!()`) on every out-of-range raw value. -/
theorem from_raw_default_mapping_amended (v : Nat) :
    (12 ≤ v → rxRfPortSelectionFromU32 v = .A_BALANCED) ∧
    (2 ≤ v → txRfPortSelectionFromU32 v = .TXB) ∧
    (4 ≤ v → rfGainControlModeFromU8 v = none) := by
  refine ⟨?_, ?_, ?_⟩
  · intro h
    obtain ⟨k, rfl⟩ : ∃ k, v = k + 12 := ⟨v - 12, by omega⟩
    rfl
  · intro h
    obtain ⟨k, rfl⟩ : ∃ k, v = k + 2 := ⟨v - 2, by omega⟩
    rfl
  · intro h
    obtain ⟨k, rfl⟩ : ∃ k, v = k + 4 := ⟨v - 4, by omega⟩
    rfl

/-- Witness for the amended C6, at the concrete out-of-range raw value
20. -/
theorem from_raw_default_mapping_amended_witness :
    rxRfPortSelectionFromU32 20 = .A_BALANCED ∧
    txRfPortSelectionFromU32 20 = .TXB ∧
    rfGainControlModeFromU8 20 = none := by
  have h := from_raw_default_mapping_amended 20
  exact ⟨h.1 (by decide), h.2.1 (by decide), h.2.2 (by decide)⟩

/-- C7: the local-oscillator power-status raw-to-domain conversion is
inverted relative to the enum's natural order (`On = 0`, `Off = 1` as
discriminants): raw 1 converts to `On` and raw 0 to `Off`, both directly
and through the `get_tx_lo_power` GET pipeline. -/
theorem lo_power_status_from_raw_inverted :
    loPowerStatusFromU8 1 = some .On ∧
    loPowerStatusFromU8 0 = some .Off ∧
    getMethod (some ()) (fun _ => (0, 1)) loPowerStatusFromU8 = .ok .On ∧
    getMethod (some ()) (fun _ => (0, 0)) loPowerStatusFromU8 = .ok .Off :=
  ⟨rfl, rfl, rfl, rfl⟩

/-- C8: the temperature conversion divides the raw milli-degrees value by
1000 (stated multiplicatively: the Celsius value times 1000 recovers the
raw value); raw 2600 converts to exactly 2.6 °C, within the 0.1 tolerance;
and the `get_temperature` GET pipeline reports `raw / 1000` for every raw
reading. -/
theorem temperature_conversion_spec :
    (∀ t : Int, temperatureX1000ToCelsius t * 1000 = (t : ℚ)) ∧
    temperatureX1000ToCelsius 2600 = 26 / 10 ∧
    |temperatureX1000ToCelsius 2600 - 26 / 10| < 1 / 10 ∧
    (∀ t : Int,
      getMethod (some ()) (fun _ => (0, t))
        (fun raw => some (temperatureX1000ToCelsius raw)) =
      .ok ((t : ℚ) / 1000)) := by
  refine ⟨?_, ?_, ?_, ?_⟩
  · intro t
    rw [temperatureX1000ToCelsius]
    field_simp
  · norm_num [temperatureX1000ToCelsius]
  · norm_num [temperatureX1000ToCelsius]
  · intro t
    rfl

set_option maxRecDepth 4000 in
/-- Bitfield facts about a byte, used to read the codec's shift/mask
arithmetic as bit-range extraction. -/
theorem byte_bitfield_facts : ∀ b < 256,
    b &&& 3 = b % 4 ∧ (b &&& 3) <<< 8 = b % 4 * 256 ∧
    (b >>> 4) &&& 7 = b / 16 % 8 ∧
    (decide (0 < b &&& 128) = decide (128 ≤ b)) := by
  decide

/-- C9: the register transaction codec decodes, for every frame of at
least 3 bytes (head bytes `b0 b1 b2`): register = low two bits of byte 0
(`b0 % 4`) concatenated above byte 1, write flag = top bit of byte 0,
burst length = bits 4–6 of byte 0 plus one, value = byte 2; in particular
`[0x80, 0x37, 0x00]` decodes as a write of register 0x37 and
`[0x00, 0x37, 0x00]` as a read of register 0x37. -/
theorem transaction_codec_decode (b0 b1 b2 : Nat) (rest : List Nat)
    (h0 : b0 < 256) :
    (Ad9361Transaction.mk (b0 :: b1 :: b2 :: rest)).register =
      b1 + b0 % 4 * 256 ∧
    (Ad9361Transaction.mk (b0 :: b1 :: b2 :: rest)).is_write =
      decide (128 ≤ b0) ∧
    (Ad9361Transaction.mk (b0 :: b1 :: b2 :: rest)).length =
      b0 / 16 % 8 + 1 ∧
    (Ad9361Transaction.mk (b0 :: b1 :: b2 :: rest)).value = b2 ∧
    (Ad9361Transaction.mk [0x80, 0x37, 0x00]).is_write = true ∧
    (Ad9361Transaction.mk [0x80, 0x37, 0x00]).register = 0x37 ∧
    (Ad9361Transaction.mk [0x00, 0x37, 0x00]).is_write = false ∧
    (Ad9361Transaction.mk [0x00, 0x37, 0x00]).register = 0x37 := by
  obtain ⟨-, hsh, hlen, hw⟩ := byte_bitfield_facts b0 h0
  refine ⟨?_, ?_, ?_, rfl, rfl, rfl, rfl, rfl⟩
  · show b1 + (b0 &&& 3) <<< 8 = b1 + b0 % 4 * 256
    rw [hsh]
  · show decide (0 < b0 &&& 128) = decide (128 ≤ b0)
    exact hw
  · show ((b0 >>> 4) &&& 7) + 1 = b0 / 16 % 8 + 1
    rw [hlen]

/-- Witness for C9 at the concrete write frame `[0x80, 0x37, 0x00]`. -/
theorem transaction_codec_decode_witness :
    (Ad9361Transaction.mk [0x80, 0x37, 0x00]).register =
      0x37 + 0x80 % 4 * 256 ∧
    (Ad9361Transaction.mk [0x80, 0x37, 0x00]).is_write = decide (128 ≤ 0x80) :=
  ⟨(transaction_codec_decode 0x80 0x37 0x00 [] (by decide)).1,
    (transaction_codec_decode 0x80 0x37 0x00 [] (by decide)).2.1⟩

/-- C10: the `gpio_get_value` bridge callback is a stub: for every GPIO
descriptor — whatever the actual pin level — it writes 0 through the
out-pointer and returns status 0, so the foreign driver can never observe
a high level through it. -/
theorem gpio_get_value_never_reports_high :
    ∀ d : GpioDesc,
      gpio_get_value d = (0, 0) ∧
      gpio_get_value { d with pinLevel := true } = (0, 0) ∧
      (gpio_get_value d).1 ≠ 1 := by
  intro d
  exact ⟨rfl, rfl, Nat.zero_ne_one⟩

end Ad9361
